import Mathlib

/-!
Verification of the session / intent-catalog core of the yang-browser backend.

The Go sources embedded here are `src/backend/nsp-intents.go` (the paginated
intent-type search `intentTypeSearch` and the per-intent-type module fetch
`intentTypeYangModules`) and `src/backend/mux.go` (the HTTP handlers
`nspConnect`, `nspDisconnect` and the background task `tokenRefreshRoutine`).

Go strings that undergo index arithmetic (the `name_version` composite keys)
are modelled as `List Char`; other strings stay `String`.  Go `int` is
modelled as `Int`.  The HTTP layer is modelled as an oracle function: each
page number (respectively each `(name, version)` pair) is mapped to the
outcome of one `makeHTTPRequest` call, so that quantifying over oracles
quantifies over all server behaviours.  Recursive / looping code takes an
explicit fuel argument and returns `none` when the fuel is exhausted, so that
`= none` for every fuel expresses divergence of the original loop.
-/

namespace YangBrowser

/-- Decimal digit character, `'0'` through `'9'` for `d < 10`. -/
def digitChar (d : Nat) : Char := Char.ofNat (48 + d)

/-- Fuel-bounded digit expansion: for `n < fuel` this is the decimal
representation of `n`, most significant digit first. -/
def natReprCore : Nat → Nat → List Char
  | 0, _ => []
  | fuel + 1, n =>
    if n < 10 then [digitChar n]
    else natReprCore fuel (n / 10) ++ [digitChar (n % 10)]

/-- Decimal representation of a natural number, most significant digit first,
as produced by Go's `fmt.Sprintf("%d", n)` for `n ≥ 0`. -/
def natRepr (n : Nat) : List Char := natReprCore (n + 1) n

/-- Decimal representation of a Go `int` as printed by `fmt.Sprintf("%d", v)`:
a leading `'-'` for negative values, then the decimal digits. -/
def intRepr (v : Int) : List Char :=
  if v < 0 then '-' :: natRepr v.natAbs else natRepr v.toNat

/-- One entry of the search response list (`IntentType` in `nsp-intents.go`):
`{"name": <string>, "version": <int>}`. -/
structure IntentType where
  name : List Char
  version : Int
  deriving DecidableEq, Repr

/-- Decoded body of one search page
(`IntentTypeList.Output` in `nsp-intents.go`). -/
structure SearchOutput where
  pageSize : Int
  totalCount : Int
  intentType : List IntentType
  deriving DecidableEq, Repr

/-- Outcome of the HTTP layer below the status-code check: either a
transport-level error, or the session gate rejecting the call. -/
inductive HttpErr where
  | sessionErr : HttpErr
  | netErr : String → HttpErr
  deriving DecidableEq, Repr

/-- An HTTP response as seen by the callers in `nsp-intents.go`: a status code
and, for the body, the result of the JSON decode (`none` = decode failure). -/
structure HttpResp (α : Type) where
  status : Int
  body : Option α
  deriving DecidableEq, Repr

/-- Modelled from the spec: `makeHTTPRequest` is not under `src/` (only its
callers are).  Per the spec, both catalog operations "require a `Connected`
session; if SessionManager reports `Disconnected`, they fail immediately with
`SessionError` rather than attempting the call".  When connected, the call is
delegated to the transport oracle, one oracle entry per page number. -/
def makeSearchRequest (connected : Bool)
    (transport : Int → Except HttpErr (HttpResp SearchOutput))
    (pageNumber : Int) : Except HttpErr (HttpResp SearchOutput) :=
  if connected then transport pageNumber else .error .sessionErr

/-- Errors returned by `intentTypeSearch`; each constructor records one
`fmt.Errorf` site of the Go function. -/
inductive SearchErr where
  /-- Go: `"[Error] fetching intent types: %v"` (error from `makeHTTPRequest`). -/
  | fetchErr : HttpErr → SearchErr
  /-- Go: `"[Error] fetching intent types, status: %d"`. -/
  | statusErr : Int → SearchErr
  /-- Go: `"[Error] decoding intent type search response: %s"`. -/
  | decodeErr : SearchErr
  /-- Go: `"[Error] fetching paginated intent types: %s"` (wraps the error of
  the recursive call). -/
  | pageErr : SearchErr → SearchErr
  deriving DecidableEq, Repr

/-- Key formatting of `intentTypeSearch`:
Go `fmt.Sprintf("%s_%d", intentType.Name, intentType.Version)`. -/
def fmtIntentType (it : IntentType) : List Char :=
  it.name ++ '_' :: intRepr it.version

/-- How `intentTypeSearch` combines the current page's keys with the outcome
of the recursive call for the next page: errors are wrapped
(`"[Error] fetching paginated intent types: %s"`), successes are appended. -/
def appendPage (keys : List (List Char))
    (rest : Option (Except SearchErr (List (List Char)))) :
    Option (Except SearchErr (List (List Char))) :=
  match rest with
  | none => none
  | some (.error e) => some (.error (.pageErr e))
  | some (.ok next) => some (.ok (keys ++ next))

/-- Embedding of `intentTypeSearch` (`nsp-intents.go` lines 45-89).  The
`json.Marshal` of the request payload cannot fail and is omitted.  Fuel bounds
the recursion depth: `none` means the recursion did not finish within the
given fuel (the Go original has no bound of its own). -/
def intentTypeSearch (connected : Bool)
    (transport : Int → Except HttpErr (HttpResp SearchOutput))
    (pageNumber pageSize : Int) :
    Nat → Option (Except SearchErr (List (List Char)))
  | 0 => none
  | fuel + 1 =>
    match makeSearchRequest connected transport pageNumber with
    | .error e => some (.error (.fetchErr e))
    | .ok resp =>
      if resp.status ≠ 200 then some (.error (.statusErr resp.status))
      else
        match resp.body with
        | none => some (.error .decodeErr)
        | some out =>
          let intentTypes := out.intentType.map fmtIntentType
          if out.pageSize = pageSize ∧ out.totalCount > pageSize then
            appendPage intentTypes
              (intentTypeSearch connected transport (pageNumber + 1) pageSize fuel)
          else
            some (.ok intentTypes)

/-- Written from the spec's words (for comparison with `intentTypeSearch`
only): "Accumulate all returned pairs across pages ... Continue fetching
subsequent pages only while the server's reported `page-size` equals the
requested size and the running total fetched is still less than
`total-count`; otherwise stop."  `fetched` is the running total of pairs
fetched before the current page. -/
def intentTypeSearchSpec (connected : Bool)
    (transport : Int → Except HttpErr (HttpResp SearchOutput))
    (pageNumber pageSize fetched : Int) :
    Nat → Option (Except SearchErr (List (List Char)))
  | 0 => none
  | fuel + 1 =>
    match makeSearchRequest connected transport pageNumber with
    | .error e => some (.error (.fetchErr e))
    | .ok resp =>
      if resp.status ≠ 200 then some (.error (.statusErr resp.status))
      else
        match resp.body with
        | none => some (.error .decodeErr)
        | some out =>
          let intentTypes := out.intentType.map fmtIntentType
          let fetchedNow := fetched + out.intentType.length
          if out.pageSize = pageSize ∧ fetchedNow < out.totalCount then
            appendPage intentTypes
              (intentTypeSearchSpec connected transport (pageNumber + 1)
                pageSize fetchedNow fuel)
          else
            some (.ok intentTypes)

/-- Go `strings.LastIndex` restricted to a single-character needle: the index
of the last occurrence of `c` in `s`, or `none` where Go returns `-1`. -/
def lastIndexOf : List Char → Char → Option Nat
  | [], _ => none
  | x :: xs, c =>
    match lastIndexOf xs c with
    | some i => some (i + 1)
    | none => if x = c then some 0 else none

/-- Key parsing of `intentTypeYangModules` (`nsp-intents.go` lines 93-99):
split the composite key at the last `'_'` into `name` (before it) and
`version` (after it); `none` where the Go code returns the
`"[Error] invalid intent type format"` error because no `'_'` is present. -/
def splitIntentTypeKey (s : List Char) : Option (List Char × List Char) :=
  match lastIndexOf s '_' with
  | none => none
  | some i => some (s.take i, s.drop (i + 1))

/-- One module entry of the module-fetch response
(`IntentTypeYangModule` in `nsp-intents.go`). -/
structure IntentTypeYangModule where
  name : String
  yangContent : String
  deriving DecidableEq, Repr

/-- Errors returned by `intentTypeYangModules`; each constructor records one
`fmt.Errorf` site of the Go function. -/
inductive ModulesErr where
  /-- Go: `"[Error] invalid intent type format: %s"`. -/
  | invalidFormat : List Char → ModulesErr
  /-- Go: `"[Error] fetching YANG modules for intent type: %v"`. -/
  | fetchErr : HttpErr → ModulesErr
  /-- Go: `"[Error] fetching YANG modules, status: %d"`. -/
  | statusErr : Int → ModulesErr
  /-- Go: `"[Error] decoding YANG modules response: %s"`. -/
  | decodeErr : ModulesErr
  deriving DecidableEq, Repr

/-- Modelled from the spec: `makeHTTPRequest` is not under `src/`.  Same
session gate as `makeSearchRequest`; the oracle maps the `(name, version)`
pair identifying the GET to the outcome of the call. -/
def makeModulesRequest (connected : Bool)
    (transport : List Char × List Char → Except HttpErr (HttpResp (List IntentTypeYangModule)))
    (key : List Char × List Char) : Except HttpErr (HttpResp (List IntentTypeYangModule)) :=
  if connected then transport key else .error .sessionErr

/-- Embedding of `intentTypeYangModules` (`nsp-intents.go` lines 92-122):
parse the composite key at the last `'_'`, then issue one authenticated GET
keyed by `(name, version)` and decode the nested module list. -/
def intentTypeYangModules (connected : Bool)
    (transport : List Char × List Char → Except HttpErr (HttpResp (List IntentTypeYangModule)))
    (intentType : List Char) : Except ModulesErr (List IntentTypeYangModule) :=
  match splitIntentTypeKey intentType with
  | none => .error (.invalidFormat intentType)
  | some (name, version) =>
    match makeModulesRequest connected transport (name, version) with
    | .error e => .error (.fetchErr e)
    | .ok resp =>
      if resp.status ≠ 200 then .error (.statusErr resp.status)
      else
        match resp.body with
        | none => .error .decodeErr
        | some modules => .ok modules

/-- The stored access token (`s.nsp.token` in the Go server state): the token
string and its time-to-live in seconds (`ExpiresIn`). -/
structure NspToken where
  accessToken : String
  expiresIn : Int
  deriving DecidableEq, Repr

/-- The shared NSP session state (`s.nsp`): credentials plus current token.
Exactly the fields the handlers in `mux.go` read and write. -/
structure NspAccess where
  ip : String
  user : String
  pass : String
  token : NspToken
  deriving DecidableEq, Repr

/-- A decoded `Connect` request body.  Go's `json.NewDecoder(...).Decode(&s.nsp)`
overwrites exactly the fields present in the JSON object and leaves absent
fields at their previous values, so a decoded body is a per-field patch. -/
structure CredsPatch where
  ip : Option String
  user : Option String
  pass : Option String
  deriving DecidableEq, Repr

/-- Effect of `json.NewDecoder(r.Body).Decode(&s.nsp)` on the stored
credentials: fields present in the body overwrite, absent fields persist
(the unexported `token` field is never decoded). -/
def applyPatch (nsp : NspAccess) (p : CredsPatch) : NspAccess :=
  { nsp with
    ip := p.ip.getD nsp.ip
    user := p.user.getD nsp.user
    pass := p.pass.getD nsp.pass }

/-- Responses of the `nspConnect` handler, one constructor per
`writeResponse`/`raiseError` site. -/
inductive ConnectResp where
  /-- Go: `"decoding NSP connect request failed"`. -/
  | decodeError : ConnectResp
  /-- Go: `"NSP credentials are missing"`. -/
  | missingCredentials : ConnectResp
  /-- Go: `"error making NSP connection"` (from `getToken`). -/
  | authError : ConnectResp
  /-- Go: `"NSP connected"`. -/
  | success : ConnectResp
  deriving DecidableEq, Repr

/-- Embedding of the `nspConnect` handler (`mux.go` lines 306-325).

The request body is `none` when the JSON decode fails, otherwise a field
patch.  `tokenResult` is the outcome of `getToken`, which is not under
`src/`; modelled from the spec: `getToken` "performs one authentication call
through Transport; on non-success HTTP status or decode failure, returns
`AuthError` ... On success, stores Token".  `spawned` counts the background
renewal tasks started so far with `go s.tokenRefreshRoutine()`; the handler
increments it on every successful connect and the code contains no
cancellation or deduplication mechanism for those tasks.

Returns (response, new session state, new spawned-task count,
whether `getToken` was invoked). -/
def nspConnect (nsp : NspAccess) (spawned : Nat) (body : Option CredsPatch)
    (tokenResult : Option NspToken) : ConnectResp × NspAccess × Nat × Bool :=
  match body with
  | none => (.decodeError, nsp, spawned, false)
  | some patch =>
    let nsp1 := applyPatch nsp patch
    if nsp1.ip = "" ∨ nsp1.user = "" ∨ nsp1.pass = "" then
      (.missingCredentials, nsp1, spawned, false)
    else
      match tokenResult with
      | none => (.authError, nsp1, spawned, true)
      | some tok => (.success, { nsp1 with token := tok }, spawned + 1, true)

/-- Oracles for one run of the renewal loop: the outcome of the `i`-th revoke
attempt, the outcome of the `i`-th `getToken` attempt, and the `ExpiresIn`
installed by the `i`-th successful `getToken`. -/
structure RenewEnv where
  revokeOk : Nat → Bool
  getOk : Nat → Bool
  nextTtl : Nat → Int

/-- How a run of `tokenRefreshRoutine` ended, one constructor per `return`
site of the Go loop. -/
inductive RefreshExit where
  /-- The `if tokenExpiresIn == 0 { return }` check. -/
  | nonRenewable : RefreshExit
  /-- Go: `"disconnecting from NSP (%s) failed"` (revoke failed). -/
  | revokeFailed : RefreshExit
  /-- Go: `"reconnecting to NSP (%s) failed"` (`getToken` failed). -/
  | getFailed : RefreshExit
  deriving DecidableEq, Repr

/-- Embedding of `tokenRefreshRoutine` (`mux.go` lines 328-355).  `ttl` is the
`ExpiresIn` read at the top of the loop; `revokes` and `gets` count the
revoke and `getToken` attempts made so far.  The `time.Sleep` of
`ttl - 10` seconds suspends but never stops the loop (a nonpositive duration
returns immediately), so it has no effect on the returned counts and is not
modelled.  Returns the exit cause with the final attempt counts, or `none`
when the loop has not exited within `fuel` iterations. -/
def tokenRefreshRoutine (env : RenewEnv) (ttl : Int) (revokes gets : Nat) :
    Nat → Option (RefreshExit × Nat × Nat)
  | 0 => none
  | fuel + 1 =>
    if ttl = 0 then some (.nonRenewable, revokes, gets)
    else if env.revokeOk revokes = false then some (.revokeFailed, revokes + 1, gets)
    else if env.getOk gets = false then some (.getFailed, revokes + 1, gets + 1)
    else tokenRefreshRoutine env (env.nextTtl gets) (revokes + 1) (gets + 1) fuel

/-- Responses of the `nspDisconnect` handler. -/
inductive DisconnectResp where
  /-- Go: `"NSP is not connected"`. -/
  | notConnected : DisconnectResp
  /-- Go: `"disconnecting from NSP (%s) failed"` plus the revoke error. -/
  | revokeError : String → DisconnectResp
  /-- Go: `"NSP disconnected"`. -/
  | success : DisconnectResp
  deriving DecidableEq, Repr

/-- Modelled from the spec: `revokeToken` is not under `src/` (only its
callers are).  Per the spec, Disconnect "issues a revoke call through
Transport, ..., clears Token, sets state `Disconnected`" and "must always
clear local state even if the remote revoke call fails, after surfacing the
error".  `remoteOk` is the outcome of the remote revoke call; the local token
is cleared regardless, and the remote error is returned when the call
failed. -/
def revokeToken (nsp : NspAccess) (remoteOk : Bool) : Option String × NspAccess :=
  (if remoteOk then none else some "revoke call failed",
   { nsp with token := { accessToken := "", expiresIn := 0 } })

/-- The code keeps no explicit `SessionState` value; `nspIsConnected` judges
the session disconnected exactly when the stored access token is empty. -/
def isDisconnected (nsp : NspAccess) : Prop := nsp.token.accessToken = ""

/-- Embedding of the `nspDisconnect` handler (`mux.go` lines 358-370): reject
when no host is stored, otherwise revoke the token and surface a revoke
failure to the caller. -/
def nspDisconnect (nsp : NspAccess) (remoteOk : Bool) : DisconnectResp × NspAccess :=
  if nsp.ip = "" then (.notConnected, nsp)
  else
    match revokeToken nsp remoteOk with
    | (some e, nsp1) => (.revokeError e, nsp1)
    | (none, nsp1) => (.success, nsp1)

/-- Decimal value parsed back from a digit list, inverse of `natReprCore`. -/
def natVal (cs : List Char) : Nat :=
  cs.foldl (fun a c => 10 * a + (c.toNat - 48)) 0

/-! ### Servers, datasets and states used as concrete inputs -/

/-- The page served for page number `pn` when the dataset is split into pages
of `P` entries: entries `pn * P` through `pn * P + P - 1` in dataset order. -/
def chunkAt (ds : List IntentType) (P pn : Int) : List IntentType :=
  (ds.drop (pn * P).toNat).take P.toNat

/-- A server holding a fixed dataset: every page request succeeds with status
200, serves the dataset in order, and reports the number of entries of the
returned page as `page-size` and the dataset size as `total-count`. -/
def datasetTransport (ds : List IntentType) (P : Int) :
    Int → Except HttpErr (HttpResp SearchOutput) :=
  fun pn =>
    .ok ⟨200, some ⟨((chunkAt ds P pn).length : Int), (ds.length : Int), chunkAt ds P pn⟩⟩

/-- A misreporting server: every page claims the requested page size 3 and a
total count of 4 while returning no entries at all. -/
def misreportingTransport : Int → Except HttpErr (HttpResp SearchOutput) :=
  fun _ => .ok ⟨200, some ⟨3, 4, []⟩⟩

/-- A server whose pages keep reporting the requested page size 3 and a total
count of 5 while it keeps producing entries: pages 0, 1 and 2 carry three
entries each, page 3 carries one final entry and reports page size 0. -/
def overCountTransport : Int → Except HttpErr (HttpResp SearchOutput) :=
  fun pn =>
    if pn = 0 then .ok ⟨200, some ⟨3, 5, [⟨['a'], 1⟩, ⟨['b'], 1⟩, ⟨['c'], 1⟩]⟩⟩
    else if pn = 1 then .ok ⟨200, some ⟨3, 5, [⟨['d'], 1⟩, ⟨['e'], 1⟩, ⟨['f'], 1⟩]⟩⟩
    else if pn = 2 then .ok ⟨200, some ⟨3, 5, [⟨['g'], 1⟩, ⟨['h'], 1⟩, ⟨['i'], 1⟩]⟩⟩
    else if pn = 3 then .ok ⟨200, some ⟨0, 5, [⟨['j'], 1⟩]⟩⟩
    else .error (.netErr "no such page")

/-- A dataset of seven distinct intent types, as in the spec's `N = 7`,
`P = 3` pagination example. -/
def sevenDataset : List IntentType :=
  [⟨['a'], 1⟩, ⟨['b'], 1⟩, ⟨['c'], 1⟩, ⟨['d'], 1⟩, ⟨['e'], 1⟩, ⟨['f'], 1⟩, ⟨['g'], 1⟩]

/-- A server whose single page reports page size 0 and total count 0. -/
def stopPageTransport : Int → Except HttpErr (HttpResp SearchOutput) :=
  fun _ => .ok ⟨200, some ⟨0, 0, []⟩⟩

/-- A modules transport that fails every call; used where the call must not
even be reached. -/
def unreachableModulesTransport :
    List Char × List Char → Except HttpErr (HttpResp (List IntentTypeYangModule)) :=
  fun _ => .error (.netErr "unreachable")

/-- A search transport that fails every call; used where the call must not
even be reached. -/
def unreachableSearchTransport : Int → Except HttpErr (HttpResp SearchOutput) :=
  fun _ => .error (.netErr "unreachable")

/-- Renewal oracles whose every revoke attempt fails. -/
def renewEnvFailRevoke : RenewEnv :=
  ⟨fun _ => false, fun _ => true, fun _ => 30⟩

/-- Renewal oracles under which every revoke and every re-acquisition
succeeds and every renewed token again carries a 30-second ttl. -/
def renewEnvHealthy : RenewEnv :=
  ⟨fun _ => true, fun _ => true, fun _ => 30⟩

/-- A server state with no stored credentials and no token. -/
def freshNsp : NspAccess := ⟨"", "", "", ⟨"", 0⟩⟩

/-- A connect body carrying a full set of nonempty credentials. -/
def fullPatch : CredsPatch := ⟨some "host", some "admin", some "pw"⟩

/-- A connect body whose password field is explicitly empty. -/
def emptyPassPatch : CredsPatch := ⟨some "host", some "admin", some ""⟩

/-- A server state with a full set of stored credentials and a live token. -/
def storedNsp : NspAccess := ⟨"oldhost", "olduser", "oldpass", ⟨"tok", 600⟩⟩

/-- A connect body whose username field is explicitly empty. -/
def emptyUserPatch : CredsPatch := ⟨some "newhost", some "", some "newpass"⟩

/-! ### Sanity checks -/

example :
    intentTypeSearch true
      (fun pn =>
        if pn = 0 then
          .ok ⟨200, some ⟨1, 2, [⟨['a'], 1⟩]⟩⟩
        else
          .ok ⟨200, some ⟨0, 2, [⟨['b'], 2⟩]⟩⟩)
      0 1 5 = some (.ok [['a', '_', '1'], ['b', '_', '2']]) := by rfl

example : splitIntentTypeKey ['a', '_', 'b', '_', '2'] = some (['a', '_', 'b'], ['2']) := by
  decide

/-! ### Lemmas about the decimal representation -/

theorem digitChar_toNat {d : Nat} (h : d < 10) : (digitChar d).toNat = 48 + d := by
  interval_cases d <;> decide

theorem mem_natReprCore_bounds (fuel : Nat) :
    ∀ n, n < fuel → ∀ c ∈ natReprCore fuel n, 48 ≤ c.toNat ∧ c.toNat ≤ 57 := by
  induction fuel with
  | zero => intro n h; omega
  | succ f ih =>
    intro n h c hc
    rw [natReprCore] at hc
    by_cases h10 : n < 10
    · rw [if_pos h10] at hc
      simp only [List.mem_singleton] at hc
      subst hc
      rw [digitChar_toNat h10]
      omega
    · rw [if_neg h10] at hc
      have hdiv : n / 10 < n := Nat.div_lt_self (by omega) (by omega)
      rcases List.mem_append.1 hc with h1 | h2
      · exact ih (n / 10) (by omega) c h1
      · simp only [List.mem_singleton] at h2
        subst h2
        have hm : n % 10 < 10 := Nat.mod_lt _ (by omega)
        rw [digitChar_toNat hm]
        omega

theorem natVal_natReprCore (fuel : Nat) :
    ∀ n, n < fuel → natVal (natReprCore fuel n) = n := by
  induction fuel with
  | zero => intro n h; omega
  | succ f ih =>
    intro n h
    rw [natReprCore]
    by_cases h10 : n < 10
    · rw [if_pos h10]
      simp only [natVal, List.foldl_cons, List.foldl_nil]
      rw [digitChar_toNat h10]
      omega
    · rw [if_neg h10]
      have hdiv : n / 10 < n := Nat.div_lt_self (by omega) (by omega)
      have hrec := ih (n / 10) (by omega)
      simp only [natVal, List.foldl_append, List.foldl_cons, List.foldl_nil] at hrec ⊢
      rw [hrec, digitChar_toNat (Nat.mod_lt _ (by omega))]
      omega

theorem natVal_natRepr (n : Nat) : natVal (natRepr n) = n :=
  natVal_natReprCore (n + 1) n (by omega)

theorem natRepr_injective : Function.Injective natRepr := by
  intro a b h
  have := natVal_natRepr a
  rw [h, natVal_natRepr] at this
  omega

theorem mem_natRepr_bounds (n : Nat) :
    ∀ c ∈ natRepr n, 48 ≤ c.toNat ∧ c.toNat ≤ 57 :=
  mem_natReprCore_bounds (n + 1) n (by omega)

theorem underscore_not_mem_natRepr (n : Nat) : '_' ∉ natRepr n := by
  intro h
  have := mem_natRepr_bounds n _ h
  have hu : ('_').toNat = 95 := by decide
  omega

theorem dash_not_mem_natRepr (n : Nat) : '-' ∉ natRepr n := by
  intro h
  have := mem_natRepr_bounds n _ h
  have hd : ('-').toNat = 45 := by decide
  omega

theorem underscore_not_mem_intRepr (v : Int) : '_' ∉ intRepr v := by
  unfold intRepr
  by_cases hv : v < 0
  · rw [if_pos hv]
    intro h
    rcases List.mem_cons.1 h with h1 | h2
    · exact absurd h1 (by decide)
    · exact underscore_not_mem_natRepr _ h2
  · rw [if_neg hv]
    exact underscore_not_mem_natRepr _

theorem intRepr_injective : Function.Injective intRepr := by
  intro a b h
  unfold intRepr at h
  by_cases ha : a < 0 <;> by_cases hb : b < 0
  · rw [if_pos ha, if_pos hb] at h
    have := natRepr_injective (List.cons.injEq .. ▸ h).2
    omega
  · rw [if_pos ha, if_neg hb] at h
    have : '-' ∈ natRepr b.toNat := h ▸ List.mem_cons_self _ _
    have := mem_natRepr_bounds _ _ this
    have hd : ('-').toNat = 45 := by decide
    omega
  · rw [if_neg ha, if_pos hb] at h
    have : '-' ∈ natRepr a.toNat := h ▸ List.mem_cons_self _ _
    have := mem_natRepr_bounds _ _ this
    have hd : ('-').toNat = 45 := by decide
    omega
  · rw [if_neg ha, if_neg hb] at h
    have := natRepr_injective h
    omega

/-! ### Lemmas about composite-key splitting -/

theorem lastIndexOf_eq_none_iff (s : List Char) (c : Char) :
    lastIndexOf s c = none ↔ c ∉ s := by
  induction s with
  | nil => simp [lastIndexOf]
  | cons x xs ih =>
    rw [lastIndexOf]
    cases hli : lastIndexOf xs c with
    | some i =>
      have hmem : c ∈ xs := by
        by_contra hmem
        rw [← ih] at hmem
        rw [hmem] at hli
        exact Option.noConfusion hli
      simp [hmem]
    | none =>
      have hns := ih.1 hli
      by_cases hxc : x = c
      · simp [hxc]
      · have hgoal : c ∉ x :: xs := by
          simp only [List.mem_cons, not_or]
          exact ⟨fun hh => hxc hh.symm, hns⟩
        simp [hxc, hgoal]

theorem lastIndexOf_append_cons (xs ys : List Char) (c : Char) (h : c ∉ ys) :
    lastIndexOf (xs ++ c :: ys) c = some xs.length := by
  induction xs with
  | nil =>
    rw [List.nil_append, lastIndexOf, (lastIndexOf_eq_none_iff ys c).2 h]
    simp
  | cons x xs ih =>
    rw [List.cons_append, lastIndexOf, ih]
    rfl

theorem splitIntentTypeKey_eq_none_iff (s : List Char) :
    splitIntentTypeKey s = none ↔ '_' ∉ s := by
  unfold splitIntentTypeKey
  cases hli : lastIndexOf s '_' with
  | some i =>
    have : ¬('_' ∉ s) := by
      rw [← lastIndexOf_eq_none_iff]
      rw [hli]
      exact fun hc => Option.noConfusion hc
    simp [this]
  | none => simp [(lastIndexOf_eq_none_iff s '_').1 hli]

/-- The split of `intentTypeYangModules` undoes the key formatting of
`intentTypeSearch`: it recovers the name before the last `'_'` and the
version digits after it, because the decimal version representation never
contains `'_'`. -/
theorem splitIntentTypeKey_fmtIntentType (name : List Char) (v : Int) :
    splitIntentTypeKey (fmtIntentType ⟨name, v⟩) = some (name, intRepr v) := by
  have hfmt : fmtIntentType ⟨name, v⟩ = name ++ '_' :: intRepr v := rfl
  rw [hfmt]
  unfold splitIntentTypeKey
  rw [lastIndexOf_append_cons _ _ _ (underscore_not_mem_intRepr v)]
  show some ((name ++ '_' :: intRepr v).take name.length,
    (name ++ '_' :: intRepr v).drop (name.length + 1)) = some (name, intRepr v)
  have htake : (name ++ '_' :: intRepr v).take name.length = name := List.take_left ..
  have hdrop : (name ++ '_' :: intRepr v).drop (name.length + 1) = intRepr v := by
    have : name ++ '_' :: intRepr v = (name ++ ['_']) ++ intRepr v := by simp
    rw [this]
    have hlen : (name ++ ['_']).length = name.length + 1 := by simp
    rw [← hlen]
    exact List.drop_left ..
  rw [htake, hdrop]

theorem fmtIntentType_injective : Function.Injective fmtIntentType := by
  intro a b h
  obtain ⟨na, va⟩ := a
  obtain ⟨nb, vb⟩ := b
  have ha := splitIntentTypeKey_fmtIntentType na va
  have hb := splitIntentTypeKey_fmtIntentType nb vb
  rw [h, hb] at ha
  obtain ⟨hn, hv⟩ := Prod.mk.injEq .. ▸ Option.some.injEq .. ▸ ha
  simp only [IntentType.mk.injEq]
  exact ⟨hn.symm, intRepr_injective hv.symm⟩

/-! ### A well-behaved paginated server over a fixed dataset -/

/-- Running the search against the dataset server from page `pn` onwards
returns exactly the keys of the dataset entries from position `pn * P` on,
in order, provided the fuel exceeds the number of remaining entries. -/
theorem intentTypeSearch_datasetTransport (ds : List IntentType) (P : Int) (hP : 0 < P) :
    ∀ (fuel : Nat) (pn : Int), 0 ≤ pn →
      (ds.drop (pn * P).toNat).length + 1 ≤ fuel →
      intentTypeSearch true (datasetTransport ds P) pn P fuel =
        some (.ok ((ds.drop (pn * P).toNat).map fmtIntentType)) := by
  intro fuel
  induction fuel with
  | zero => intro pn hpn hf; omega
  | succ f ih =>
    intro pn hpn hf
    have hstep :
        intentTypeSearch true (datasetTransport ds P) pn P (f + 1) =
          (if ((chunkAt ds P pn).length : Int) = P ∧ (ds.length : Int) > P then
            appendPage ((chunkAt ds P pn).map fmtIntentType)
              (intentTypeSearch true (datasetTransport ds P) (pn + 1) P f)
          else some (.ok ((chunkAt ds P pn).map fmtIntentType))) := by
      rw [intentTypeSearch]
      rfl
    rw [hstep]
    have hpInt : (P.toNat : Int) = P := Int.toNat_of_nonneg hP.le
    have hmul : 0 ≤ pn * P := mul_nonneg hpn hP.le
    have hlenchunk : (chunkAt ds P pn).length = min P.toNat (ds.drop (pn * P).toNat).length := by
      rw [chunkAt, List.length_take]
    by_cases hcond : ((chunkAt ds P pn).length : Int) = P ∧ (ds.length : Int) > P
    · rw [if_pos hcond]
      obtain ⟨hc1, hc2⟩ := hcond
      have hple : P.toNat ≤ (ds.drop (pn * P).toNat).length := by omega
      have hnextmul : (pn + 1) * P = pn * P + P := by ring
      have hdropnext : ds.drop ((pn + 1) * P).toNat = (ds.drop (pn * P).toNat).drop P.toNat := by
        rw [List.drop_drop, hnextmul]
        congr 1
        omega
      have hfnext : (ds.drop ((pn + 1) * P).toNat).length + 1 ≤ f := by
        rw [hdropnext, List.length_drop]
        omega
      rw [ih (pn + 1) (by omega) hfnext, hdropnext]
      simp only [appendPage]
      rw [chunkAt, ← List.map_append, List.take_append_drop]
    · rw [if_neg hcond]
      have hchunkeq : chunkAt ds P pn = ds.drop (pn * P).toNat := by
        rw [chunkAt]
        apply List.take_of_length_le
        rcases not_and_or.1 hcond with h1 | h2
        · have hne : (chunkAt ds P pn).length ≠ P.toNat := fun he => h1 (by rw [he, hpInt])
          omega
        · have hdle : (ds.drop (pn * P).toNat).length ≤ ds.length := by
            rw [List.length_drop]; omega
          omega
      rw [hchunkeq]

theorem intentTypeSearch_misreporting_diverges (fuel : Nat) :
    ∀ pn : Int, intentTypeSearch true misreportingTransport pn 3 fuel = none := by
  induction fuel with
  | zero => intro pn; rfl
  | succ f ih =>
    intro pn
    rw [intentTypeSearch]
    show appendPage [] (intentTypeSearch true misreportingTransport (pn + 1) 3 f) = none
    rw [ih (pn + 1)]
    rfl

/-! ### Claim theorems -/

/-- C1: the claim states that `intentTypeSearch` performs at most a fixed,
implementation-chosen maximum number of page fetches and terminates for every
sequence of server page responses.  The code enforces no such bound: against
`misreportingTransport`, whose every response reports the requested page size
3 and a total count of 4, the recursion of `intentTypeSearch` starting at
page 0 with page size 3 never returns, however much fuel it is given — one
page fetch per unit of fuel, unboundedly. -/
theorem claim1_search_no_page_bound :
    ∀ fuel : Nat, intentTypeSearch true misreportingTransport 0 3 fuel = none :=
  fun fuel => intentTypeSearch_misreporting_diverges fuel 0

/-- C2 counterexample: the code decides whether to fetch the next page by
`total-count > requested page size`, not by comparing the running total of
fetched pairs with `total-count`.  Against `overCountTransport` the code
(starting at page 0 with page size 3) fetches pages 2 and 3 even though the
running total reaches the reported total count 5 during page 1, returning ten
keys, while the spec's rule stops after page 1 with six keys. -/
theorem claim2_counterexample :
    intentTypeSearch true overCountTransport 0 3 10 =
      some (.ok [['a', '_', '1'], ['b', '_', '1'], ['c', '_', '1'], ['d', '_', '1'],
        ['e', '_', '1'], ['f', '_', '1'], ['g', '_', '1'], ['h', '_', '1'],
        ['i', '_', '1'], ['j', '_', '1']]) ∧
    intentTypeSearchSpec true overCountTransport 0 3 0 10 =
      some (.ok [['a', '_', '1'], ['b', '_', '1'], ['c', '_', '1'], ['d', '_', '1'],
        ['e', '_', '1'], ['f', '_', '1']]) ∧
    intentTypeSearch true overCountTransport 0 3 10 ≠
      intentTypeSearchSpec true overCountTransport 0 3 0 10 := by
  refine ⟨by rfl, by rfl, ?_⟩
  intro h
  rw [show intentTypeSearch true overCountTransport 0 3 10 =
      some (.ok [['a', '_', '1'], ['b', '_', '1'], ['c', '_', '1'], ['d', '_', '1'],
        ['e', '_', '1'], ['f', '_', '1'], ['g', '_', '1'], ['h', '_', '1'],
        ['i', '_', '1'], ['j', '_', '1']]) from rfl,
    show intentTypeSearchSpec true overCountTransport 0 3 0 10 =
      some (.ok [['a', '_', '1'], ['b', '_', '1'], ['c', '_', '1'], ['d', '_', '1'],
        ['e', '_', '1'], ['f', '_', '1']]) from rfl] at h
  simp only [Option.some.injEq, Except.ok.injEq] at h
  exact absurd h (by decide)

/-- C2 (amended): after a page response that arrives with status 200 and
decodes to `out`, `intentTypeSearch` fetches the next page if and only if the
server-reported `page-size` equals the requested page size and the
server-reported `total-count` is strictly greater than the requested page
size (a page-local check; no running total is tracked); otherwise it stops
and returns the keys accumulated from this page. -/
theorem claim2_amended_continue_iff (connected : Bool)
    (t : Int → Except HttpErr (HttpResp SearchOutput)) (pn ps : Int) (fuel : Nat)
    (out : SearchOutput) (h : makeSearchRequest connected t pn = .ok ⟨200, some out⟩) :
    intentTypeSearch connected t pn ps (fuel + 1) =
      if out.pageSize = ps ∧ out.totalCount > ps then
        appendPage (out.intentType.map fmtIntentType)
          (intentTypeSearch connected t (pn + 1) ps fuel)
      else some (.ok (out.intentType.map fmtIntentType)) := by
  rw [intentTypeSearch, h]
  rfl

theorem claim2_amended_witness :
    intentTypeSearch true stopPageTransport 0 3 1 = some (.ok []) :=
  claim2_amended_continue_iff true stopPageTransport 0 3 0 ⟨0, 0, []⟩ rfl

/-- C3: for every dataset of `N` distinct intent types served in order by a
well-behaved paginated server with page size `P > 0`, the search starting at
page 0 returns exactly the `N` dataset entries formatted as `name_version`,
in order, each exactly once (the key list is duplicate-free because
`name_version` formatting is injective). -/
theorem claim3_pagination_complete (ds : List IntentType) (P : Int) (fuel : Nat)
    (hP : 0 < P) (hnd : ds.Nodup) (hfuel : ds.length + 1 ≤ fuel) :
    intentTypeSearch true (datasetTransport ds P) 0 P fuel =
      some (.ok (ds.map fmtIntentType)) ∧
    (ds.map fmtIntentType).Nodup ∧ (ds.map fmtIntentType).length = ds.length := by
  refine ⟨?_, hnd.map fmtIntentType_injective, List.length_map ..⟩
  have hmain := intentTypeSearch_datasetTransport ds P hP fuel 0 le_rfl ?_
  · simpa using hmain
  · simpa using hfuel

theorem claim3_witness :
    (0 : Int) < 3 ∧ sevenDataset.Nodup ∧ sevenDataset.length + 1 ≤ 8 ∧
    (intentTypeSearch true (datasetTransport sevenDataset 3) 0 3 8 =
        some (.ok (sevenDataset.map fmtIntentType)) ∧
      (sevenDataset.map fmtIntentType).Nodup ∧
      (sevenDataset.map fmtIntentType).length = sevenDataset.length) :=
  ⟨by decide, by decide, by decide,
    claim3_pagination_complete sevenDataset 3 8 (by decide) (by decide) (by decide)⟩

/-- C4 counterexample: with a disconnected session, `intentTypeYangModules`
applied to the key `noversion` (no `'_'`) fails with the malformed-key error,
not with the session error the claim requires for every disconnected call —
the key is parsed before the session gate is consulted. -/
theorem claim4_counterexample :
    intentTypeYangModules false unreachableModulesTransport
        ['n', 'o', 'v', 'e', 'r', 's', 'i', 'o', 'n'] =
      .error (.invalidFormat ['n', 'o', 'v', 'e', 'r', 's', 'i', 'o', 'n']) ∧
    intentTypeYangModules false unreachableModulesTransport
        ['n', 'o', 'v', 'e', 'r', 's', 'i', 'o', 'n'] ≠
      .error (.fetchErr .sessionErr) := by
  refine ⟨by rfl, ?_⟩
  intro h
  rw [show intentTypeYangModules false unreachableModulesTransport
        ['n', 'o', 'v', 'e', 'r', 's', 'i', 'o', 'n'] =
      .error (.invalidFormat ['n', 'o', 'v', 'e', 'r', 's', 'i', 'o', 'n']) from rfl] at h
  simp only [Except.error.injEq] at h
  exact absurd h (by decide)

/-- C4 (amended): with a disconnected session, `intentTypeSearch` fails
immediately with the session error for every transport oracle (so no
transport call influences the result), and `intentTypeYangModules` does the
same for every key that contains a `'_'`; a key without `'_'` instead fails
with the malformed-key error before the session is consulted, likewise for
every transport oracle. -/
theorem claim4_amended_disconnected
    (t : Int → Except HttpErr (HttpResp SearchOutput))
    (ft : List Char × List Char → Except HttpErr (HttpResp (List IntentTypeYangModule)))
    (pn ps : Int) (fuel : Nat) (key : List Char) (hk : '_' ∈ key) :
    intentTypeSearch false t pn ps (fuel + 1) = some (.error (.fetchErr .sessionErr)) ∧
    intentTypeYangModules false ft key = .error (.fetchErr .sessionErr) := by
  constructor
  · rw [intentTypeSearch]
    rfl
  · unfold intentTypeYangModules
    cases hsplit : splitIntentTypeKey key with
    | none => exact absurd hk (by simpa using (splitIntentTypeKey_eq_none_iff key).1 hsplit)
    | some p =>
      obtain ⟨n, v⟩ := p
      rfl

theorem claim4_amended_witness :
    intentTypeSearch false unreachableSearchTransport 0 3 1 =
      some (.error (.fetchErr .sessionErr)) ∧
    intentTypeYangModules false unreachableModulesTransport ['a', '_', '1'] =
      .error (.fetchErr .sessionErr) :=
  claim4_amended_disconnected unreachableSearchTransport unreachableModulesTransport
    0 3 0 ['a', '_', '1'] (by decide)

/-- C5 counterexample: for a token with ttl 5 — inside the claim's range
0 < ttl ≤ 10 — the routine does not terminate without renewal activity: the
only early exit is the `ttl == 0` check, so it proceeds to attempt a revoke
(here failing, ending the run with one revoke attempted). -/
theorem claim5_counterexample :
    tokenRefreshRoutine renewEnvFailRevoke 5 0 0 2 = some (.revokeFailed, 1, 0) := by
  rfl

theorem tokenRefreshRoutine_revokes_le :
    ∀ (fuel : Nat) (env : RenewEnv) (ttl : Int) (r g : Nat)
      (out : RefreshExit × Nat × Nat),
      tokenRefreshRoutine env ttl r g fuel = some out → r ≤ out.2.1 := by
  intro fuel
  induction fuel with
  | zero => intro env ttl r g out h; exact Option.noConfusion h
  | succ f ih =>
    intro env ttl r g out h
    rw [tokenRefreshRoutine] at h
    by_cases h0 : ttl = 0
    · rw [if_pos h0] at h
      injection h with h2
      subst h2
      exact le_rfl
    · rw [if_neg h0] at h
      by_cases hr : env.revokeOk r = false
      · rw [if_pos hr] at h
        injection h with h2
        subst h2
        exact Nat.le_succ r
      · rw [if_neg hr] at h
        by_cases hg : env.getOk g = false
        · rw [if_pos hg] at h
          injection h with h2
          subst h2
          exact Nat.le_succ r
        · rw [if_neg hg] at h
          exact Nat.le_of_succ_le (ih env (env.nextTtl g) (r + 1) (g + 1) out h)

/-- C5 (amended): the routine's only renewal-free exit is `ttl = 0`: with a
zero ttl it returns at once having attempted no revoke and no re-acquisition,
while for every nonzero ttl — including every 0 < ttl ≤ 10, where the
`ttl - 10` second sleep is nonpositive and returns immediately — a
terminating run has attempted at least one revoke. -/
theorem claim5_amended_zero_ttl_only (env : RenewEnv) (fuel : Nat) (hf : 0 < fuel) :
    tokenRefreshRoutine env 0 0 0 fuel = some (.nonRenewable, 0, 0) ∧
    ∀ (ttl : Int) (out : RefreshExit × Nat × Nat), ttl ≠ 0 →
      tokenRefreshRoutine env ttl 0 0 fuel = some out → 1 ≤ out.2.1 := by
  obtain ⟨f, rfl⟩ : ∃ f, fuel = f + 1 := ⟨fuel - 1, by omega⟩
  constructor
  · rw [tokenRefreshRoutine]
    rfl
  · intro ttl out httl hout
    rw [tokenRefreshRoutine, if_neg httl] at hout
    by_cases hr : env.revokeOk 0 = false
    · rw [if_pos hr] at hout
      injection hout with h2
      subst h2
      exact le_rfl
    · rw [if_neg hr] at hout
      by_cases hg : env.getOk 0 = false
      · rw [if_pos hg] at hout
        injection hout with h2
        subst h2
        exact le_rfl
      · rw [if_neg hg] at hout
        exact tokenRefreshRoutine_revokes_le f env (env.nextTtl 0) 1 1 out hout

theorem claim5_amended_witness :
    tokenRefreshRoutine renewEnvFailRevoke 0 0 0 2 = some (.nonRenewable, 0, 0) ∧
    (1 : Nat) ≤ 1 := by
  have h := claim5_amended_zero_ttl_only renewEnvFailRevoke 2 (by decide)
  exact ⟨h.1, h.2 5 (.revokeFailed, 1, 0) (by decide) (by rfl)⟩

/-- C6: for every connected session (a stored host address — the code's own
connectivity test in `nspDisconnect`) and either outcome of the remote revoke
call, `nspDisconnect` leaves the access token cleared, its ttl zeroed and the
session disconnected; when the remote revoke fails, the revoke error is
surfaced to the caller. -/
theorem claim6_disconnect_clears_state (nsp : NspAccess) (remoteOk : Bool)
    (h : nsp.ip ≠ "") :
    (nspDisconnect nsp remoteOk).2.token.accessToken = "" ∧
    (nspDisconnect nsp remoteOk).2.token.expiresIn = 0 ∧
    isDisconnected (nspDisconnect nsp remoteOk).2 ∧
    (remoteOk = false →
      (nspDisconnect nsp remoteOk).1 = .revokeError "revoke call failed") := by
  unfold nspDisconnect revokeToken isDisconnected
  rw [if_neg h]
  cases remoteOk <;> simp

theorem claim6_witness :
    (nspDisconnect ⟨"h", "u", "p", ⟨"tok", 3600⟩⟩ false).2.token.accessToken = "" ∧
    (nspDisconnect ⟨"h", "u", "p", ⟨"tok", 3600⟩⟩ false).2.token.expiresIn = 0 ∧
    isDisconnected (nspDisconnect ⟨"h", "u", "p", ⟨"tok", 3600⟩⟩ false).2 ∧
    (false = false →
      (nspDisconnect ⟨"h", "u", "p", ⟨"tok", 3600⟩⟩ false).1 =
        .revokeError "revoke call failed") :=
  claim6_disconnect_clears_state ⟨"h", "u", "p", ⟨"tok", 3600⟩⟩ false (by decide)

theorem tokenRefreshRoutine_healthy_diverges :
    ∀ (fuel r g : Nat), tokenRefreshRoutine renewEnvHealthy 30 r g fuel = none := by
  intro fuel
  induction fuel with
  | zero => intro r g; rfl
  | succ f ih =>
    intro r g
    rw [tokenRefreshRoutine]
    exact ih (r + 1) (g + 1)

/-- C7: the claim states that after any sequence of successful Connects at
most one renewal task is live.  The code starts a fresh
`go s.tokenRefreshRoutine()` on every successful connect and has no
cancellation or deduplication mechanism: after two successful Connects the
spawned-task count is 2, and a task renewing healthy 30-second tokens never
exits on its own, so both spawned tasks stay live, each renewing the token
independently. -/
theorem claim7_duplicate_renewal_tasks :
    (nspConnect (nspConnect freshNsp 0 (some fullPatch) (some ⟨"tok1", 30⟩)).2.1
        (nspConnect freshNsp 0 (some fullPatch) (some ⟨"tok1", 30⟩)).2.2.1
        (some fullPatch) (some ⟨"tok2", 30⟩)).2.2.1 = 2 ∧
    (∀ fuel : Nat, tokenRefreshRoutine renewEnvHealthy 30 0 0 fuel = none) :=
  ⟨by rfl, fun fuel => tokenRefreshRoutine_healthy_diverges fuel 0 0⟩

/-- C8: a Connect request whose decoded credentials (after Go's JSON decode
merges the body into the stored fields) leave the host, the username or the
password empty fails with the missing-credentials response, calls no
`getToken` (the outcome is the same for every `getToken` oracle value and the
call flag is `false`) and starts no renewal task (the spawned count is
unchanged); the merged credentials are stored. -/
theorem claim8_missing_credentials (nsp : NspAccess) (spawned : Nat) (patch : CredsPatch)
    (tokenResult : Option NspToken)
    (h : (applyPatch nsp patch).ip = "" ∨ (applyPatch nsp patch).user = "" ∨
      (applyPatch nsp patch).pass = "") :
    nspConnect nsp spawned (some patch) tokenResult =
      (.missingCredentials, applyPatch nsp patch, spawned, false) := by
  simp only [nspConnect]
  rw [if_pos h]

theorem claim8_witness :
    ((applyPatch freshNsp emptyPassPatch).ip = "" ∨
      (applyPatch freshNsp emptyPassPatch).user = "" ∨
      (applyPatch freshNsp emptyPassPatch).pass = "") ∧
    nspConnect freshNsp 0 (some emptyPassPatch) (some ⟨"tok", 30⟩) =
      (.missingCredentials, applyPatch freshNsp emptyPassPatch, 0, false) :=
  ⟨by decide,
    claim8_missing_credentials freshNsp 0 emptyPassPatch (some ⟨"tok", 30⟩) (by decide)⟩

/-- C9: `intentTypeYangModules` splits its key at the last `'_'`: every key
`name_version` produced by `intentTypeSearch`'s key formatter splits back
into exactly that name and that version's digits, and the operation fails
with the malformed-key error exactly when the key contains no `'_'`, for
every session state and transport oracle. -/
theorem claim9_key_roundtrip_and_malformed :
    (∀ (name : List Char) (v : Int),
      splitIntentTypeKey (fmtIntentType ⟨name, v⟩) = some (name, intRepr v)) ∧
    (∀ (connected : Bool)
      (ft : List Char × List Char → Except HttpErr (HttpResp (List IntentTypeYangModule)))
      (key : List Char),
      intentTypeYangModules connected ft key = .error (.invalidFormat key) ↔
        '_' ∉ key) := by
  constructor
  · exact splitIntentTypeKey_fmtIntentType
  · intro connected ft key
    constructor
    · intro hres
      by_contra hmem
      cases hsplit : splitIntentTypeKey key with
      | none => exact ((splitIntentTypeKey_eq_none_iff key).1 hsplit) hmem
      | some p =>
        obtain ⟨n, v⟩ := p
        unfold intentTypeYangModules at hres
        simp only [hsplit] at hres
        cases hreq : makeModulesRequest connected ft (n, v) with
        | error e => simp [hreq] at hres
        | ok resp =>
          by_cases h200 : resp.status ≠ 200
          · simp [hreq, h200] at hres
          · cases hbody : resp.body with
            | none => simp [hreq, h200, hbody] at hres
            | some modules => simp [hreq, h200, hbody] at hres
    · intro hmem
      unfold intentTypeYangModules
      rw [(splitIntentTypeKey_eq_none_iff key).2 hmem]

/-- C10: `nspConnect` decodes the request body into the shared session
credentials before validating them: a body that decodes to credentials with
an empty field is rejected with the missing-credentials response, yet the
rejected merged credentials have already replaced the stored ones. -/
theorem claim10_decode_before_validate (nsp : NspAccess) (spawned : Nat)
    (patch : CredsPatch) (tokenResult : Option NspToken)
    (h : (applyPatch nsp patch).ip = "" ∨ (applyPatch nsp patch).user = "" ∨
      (applyPatch nsp patch).pass = "") :
    (nspConnect nsp spawned (some patch) tokenResult).1 = .missingCredentials ∧
    (nspConnect nsp spawned (some patch) tokenResult).2.1 = applyPatch nsp patch := by
  simp only [nspConnect]
  rw [if_pos h]
  exact ⟨rfl, rfl⟩

theorem claim10_witness :
    ((applyPatch storedNsp emptyUserPatch).ip = "" ∨
      (applyPatch storedNsp emptyUserPatch).user = "" ∨
      (applyPatch storedNsp emptyUserPatch).pass = "") ∧
    ((nspConnect storedNsp 0 (some emptyUserPatch) (some ⟨"t2", 30⟩)).1 =
        .missingCredentials ∧
      (nspConnect storedNsp 0 (some emptyUserPatch) (some ⟨"t2", 30⟩)).2.1 =
        applyPatch storedNsp emptyUserPatch) ∧
    applyPatch storedNsp emptyUserPatch ≠ storedNsp :=
  ⟨by decide,
    claim10_decode_before_validate storedNsp 0 emptyUserPatch (some ⟨"t2", 30⟩) (by decide),
    by decide⟩

end YangBrowser
